import Mathlib

/-! Shallow embedding of `src/timeline_scene_manager.py` and of the timeline
validation slice of `src/nodes.py` from the ComfyUI-Lattice-Manim
repository, with theorems settling the frozen claims about scene layers,
timeline management, auto-detection and JSON round-tripping.

Times, durations and scene ids are modelled as rationals: the Python code
works with floats, and every operation the claims exercise is exact decimal
arithmetic, on which float and rational semantics agree. JSON is modelled
at the value level by the inductive type `Json`; a serialized timeline is
the value that `json.dumps` renders and `json.loads` recovers. Text that
`json.loads` rejects is modelled as `none : Option Json`, and raising a
Python exception is modelled by `Except PyErr`.
-/

/-- Kind of Python exception observable from the modelled code paths:
`parseError` stands for `json.JSONDecodeError` raised by `json.loads` (the
ParseError of the spec), `attributeError` for calling `.get` on a value
that is not a dict, `typeError` for an operation on unsupported operand
types or an unexpected keyword argument to a constructor, and `valueError`
for an explicit `raise ValueError(msg)`. -/
inductive PyErr where
  | parseError : PyErr
  | attributeError : PyErr
  | typeError : PyErr
  | valueError (msg : String) : PyErr
  deriving DecidableEq

/-- JSON values, as produced by `json.loads` and consumed by `json.dumps`.
Numbers are rationals; Python distinguishes int and float, but every use in
the modelled code treats them uniformly. -/
inductive Json where
  | null : Json
  | bool (b : Bool) : Json
  | num (q : ℚ) : Json
  | str (s : String) : Json
  | arr (elems : List Json) : Json
  | obj (entries : List (String × Json)) : Json

/-- Dictionary lookup with a default: models `data.get(key, default)` on a
Python dict. The dicts built by the modelled code have distinct keys, so
first-match lookup agrees with Python dict semantics. -/
def dictGet (entries : List (String × Json)) (key : String) (dflt : Json) : Json :=
  (entries.lookup key).getD dflt

/-- Numeric view of a JSON value. Python arithmetic accepts int, float and
bool (a bool is an int valued 0 or 1) and raises `TypeError` on any other
operand. `SceneLayer.from_dict` itself stores looked-up values unchecked;
the model types the fields at their declared types, raising here the
`TypeError` that Python raises on the first arithmetic use of a non-numeric
value (for `id`, at `scene.scene_id + 1` inside `from_json`). -/
def Json.toNum : Json → Except PyErr ℚ
  | .num q => .ok q
  | .bool b => .ok (if b then 1 else 0)
  | _ => .error .typeError

/-- String view of a JSON value; see `Json.toNum` for the typing
convention of the model. -/
def Json.toStr : Json → Except PyErr String
  | .str s => .ok s
  | _ => .error .typeError

/-- List view of a JSON value; see `Json.toNum` for the typing convention
of the model. -/
def Json.toArr : Json → Except PyErr (List Json)
  | .arr xs => .ok xs
  | _ => .error .typeError

/-- Discriminator for JSON objects (Python dicts after `json.loads`). -/
def Json.isObj : Json → Bool
  | .obj _ => true
  | _ => false

/-- Model of the `SceneLayer` class: one scene with in/out points. Field
names follow the Python attributes. -/
structure SceneLayer where
  scene_id : ℚ
  start_time : ℚ
  end_time : ℚ
  prompt : String
  visual_type : String
  manim_code : String
  elements : List Json
  auto_generated : Bool

/-- Model of `SceneLayer.__init__` with its parameters (the Python defaults
are `prompt=""`, `visual_type="auto"`, `manim_code=""`, `elements=None`
stored as `[]`). The attribute `auto_generated` is initialised to `False`;
the constructor has no `auto_generated` parameter. -/
def SceneLayer.init (scene_id start_time end_time : ℚ)
    (prompt visual_type manim_code : String) (elements : List Json) : SceneLayer :=
  { scene_id := scene_id, start_time := start_time, end_time := end_time,
    prompt := prompt, visual_type := visual_type, manim_code := manim_code,
    elements := elements, auto_generated := false }

/-- Model of `SceneLayer.to_dict`: the serialization dictionary, with all
eight attributes including `auto_generated`. -/
def SceneLayer.to_dict (s : SceneLayer) : Json :=
  .obj [("id", .num s.scene_id), ("start_time", .num s.start_time),
        ("end_time", .num s.end_time), ("prompt", .str s.prompt),
        ("visual_type", .str s.visual_type), ("manim_code", .str s.manim_code),
        ("elements", .arr s.elements), ("auto_generated", .bool s.auto_generated)]

/-- Model of `SceneLayer.from_dict`: reads the seven constructor arguments
with `data.get` and its defaults, and never reads the `auto_generated` key,
so the flag keeps its constructor value `False`. Calling `.get` on a
non-dict raises `AttributeError`. -/
def SceneLayer.from_dict (data : Json) : Except PyErr SceneLayer :=
  match data with
  | .obj entries => do
      let i ← (dictGet entries "id" (.num 0)).toNum
      let st ← (dictGet entries "start_time" (.num 0)).toNum
      let en ← (dictGet entries "end_time" (.num 0)).toNum
      let pr ← (dictGet entries "prompt" (.str "")).toStr
      let vt ← (dictGet entries "visual_type" (.str "auto")).toStr
      let mc ← (dictGet entries "manim_code" (.str "")).toStr
      let el ← (dictGet entries "elements" (.arr [])).toArr
      pure (SceneLayer.init i st en pr vt mc el)
  | _ => .error .attributeError

/-- Model of `SceneLayer.set_in_point`:
`self.start_time = max(0.0, min(time, self.end_time - 0.1))`. -/
def SceneLayer.set_in_point (s : SceneLayer) (time : ℚ) : SceneLayer :=
  { s with start_time := max 0 (min time (s.end_time - 0.1)) }

/-- Model of `SceneLayer.set_out_point`:
`self.end_time = max(self.start_time + 0.1, time)`. -/
def SceneLayer.set_out_point (s : SceneLayer) (time : ℚ) : SceneLayer :=
  { s with end_time := max (s.start_time + 0.1) time }

/-- Model of `SceneLayer.get_duration`:
`max(0.01, self.end_time - self.start_time)`. -/
def SceneLayer.get_duration (s : SceneLayer) : ℚ :=
  max 0.01 (s.end_time - s.start_time)

/-- Round-trip image of a layer under `to_dict` then `from_dict`: every
field is kept except `auto_generated`, which falls back to the constructor
default `False`. -/
def SceneLayer.clearAuto (s : SceneLayer) : SceneLayer :=
  { s with auto_generated := false }

/-- Model of the `TimelineSceneManager` class state. -/
structure TimelineSceneManager where
  audio_duration : ℚ
  layers : List SceneLayer
  next_scene_id : ℚ

/-- Model of `TimelineSceneManager.__init__` (Python default
`audio_duration=0.0`): no layers and the id counter at 1. -/
def TimelineSceneManager.init (audio_duration : ℚ) : TimelineSceneManager :=
  { audio_duration := audio_duration, layers := [], next_scene_id := 1 }

/-- One entry of a word-timestamp list: the Python dict
`{"word": ..., "start": ..., "end": ...}`. The `end` key is called `stop`
here because `end` is a Lean keyword. -/
structure WordTimestamp where
  word : String
  start : ℚ
  stop : ℚ

/-- Model of the Python `str.strip()`: drop leading and trailing
whitespace. -/
def pyStrip (s : String) : String :=
  ⟨((s.data.dropWhile Char.isWhitespace).reverse.dropWhile Char.isWhitespace).reverse⟩

/-- Model of `s.endswith(p)` for string arguments. -/
def pyEndsWith (s p : String) : Bool :=
  p.data.isSuffixOf s.data

/-- Model of `sep.join(parts)`. -/
def pyJoin (sep : String) : List String → String
  | [] => ""
  | [x] => x
  | x :: rest => x ++ sep ++ pyJoin sep rest

/-- Sentence-ending punctuation used by `auto_detect_scenes`. -/
def sentenceEnders : List String := [".", "!", "?", ":", ";"]

/-- Test from the sentence method:
`any(word.endswith(p) for p in [".", "!", "?", ":", ";"])` applied to the
stripped word. -/
def endsSentence (w : String) : Bool :=
  sentenceEnders.any (fun p => pyEndsWith w p)

/-- Grouping loop of the sentence method of `auto_detect_scenes`: words are
accumulated into the current group; a word that is blank after stripping is
skipped; a word whose stripped form ends a sentence closes the group; the
trailing group without a terminator is appended at input end when nonempty. -/
def groupWords : List WordTimestamp → List WordTimestamp → List (List WordTimestamp)
  | [], current => if current.isEmpty then [] else [current]
  | w :: rest, current =>
      if (pyStrip w.word).isEmpty then groupWords rest current
      else
        let current' := current ++ [w]
        if endsSentence (pyStrip w.word) then current' :: groupWords rest []
        else groupWords rest current'

/-- Scene-construction loop of the sentence method: each group becomes an
auto-generated `SceneLayer` spanning from the start of its first word to
the end of its last word, with the stripped words joined by single spaces
as prompt (empty groups are skipped by the `continue`, though the grouping
never produces one). Returns the scenes and the advanced id counter. -/
def scenesOfGroups (nid : ℚ) : List (List WordTimestamp) → List SceneLayer × ℚ
  | [] => ([], nid)
  | [] :: rest => scenesOfGroups nid rest
  | (w :: ws) :: rest =>
      let sc := SceneLayer.init nid w.start (List.getLastD ws w).stop
        (pyJoin " " ((w :: ws).map (fun x => pyStrip x.word))) "auto" "" []
      let (more, nid') := scenesOfGroups (nid + 1) rest
      ({ sc with auto_generated := true } :: more, nid')

/-- Model of `TimelineSceneManager.auto_detect_scenes`. The sentence method
groups the words and numbers the resulting scenes from `next_scene_id`,
advancing the counter; the manager is otherwise unchanged and the detected
scenes are only returned, not inserted. The time method iterates
`while current_time < self.audio_duration` from `current_time = 0.0` and on
the first iteration evaluates `SceneLayer(..., auto_generated=True)`;
`SceneLayer.__init__` has no `auto_generated` parameter, so that call
raises `TypeError` whenever the loop body runs at all, i.e. whenever
`0 < audio_duration`. Any other method string falls through both branches
and returns the empty list. -/
def TimelineSceneManager.auto_detect_scenes (m : TimelineSceneManager)
    (word_timestamps : List WordTimestamp) (method : String) :
    Except PyErr (List SceneLayer × TimelineSceneManager) :=
  if method = "sentence" then
    let (scs, nid') := scenesOfGroups m.next_scene_id (groupWords word_timestamps [])
    .ok (scs, { m with next_scene_id := nid' })
  else if method = "time" then
    if 0 < m.audio_duration then .error .typeError
    else .ok ([], m)
  else
    .ok ([], m)

/-- Stable insertion of a layer into a list: the new layer goes after every
layer whose start time is less than or equal to its own. -/
def insertByStart (s : SceneLayer) : List SceneLayer → List SceneLayer
  | [] => [s]
  | t :: rest =>
      if t.start_time ≤ s.start_time then t :: insertByStart s rest
      else s :: t :: rest

/-- Model of `sort_layers`, i.e.
`self.layers.sort(key=lambda s: s.start_time)`: Python list.sort is a
stable sort by the key, and a left-to-right stable insertion sort computes
the same list. -/
def sortLayers (ls : List SceneLayer) : List SceneLayer :=
  ls.foldl (fun acc s => insertByStart s acc) []

/-- Model of `TimelineSceneManager.sort_layers` as a state operation. -/
def TimelineSceneManager.sort_layers (m : TimelineSceneManager) : TimelineSceneManager :=
  { m with layers := sortLayers m.layers }

/-- Model of `TimelineSceneManager.add_scene`: the fresh-counter id is
written over whatever id the argument carries, the counter advances, the
layer is appended and the layers are re-sorted. -/
def TimelineSceneManager.add_scene (m : TimelineSceneManager) (scene : SceneLayer) :
    TimelineSceneManager :=
  { m with
    layers := sortLayers (m.layers ++ [{ scene with scene_id := m.next_scene_id }]),
    next_scene_id := m.next_scene_id + 1 }

/-- Model of `TimelineSceneManager.remove_scene`: drops every layer with
the given id. -/
def TimelineSceneManager.remove_scene (m : TimelineSceneManager) (scene_id : ℚ) :
    TimelineSceneManager :=
  { m with layers := m.layers.filter (fun s => !(decide (s.scene_id = scene_id))) }

/-- Model of `TimelineSceneManager.get_scene`: first layer with the given
id, if any. -/
def TimelineSceneManager.get_scene (m : TimelineSceneManager) (scene_id : ℚ) :
    Option SceneLayer :=
  m.layers.find? (fun s => decide (s.scene_id = scene_id))

/-- Keyword arguments of `update_scene`: one optional value per attribute
of `SceneLayer`, plus the keyword names that are not attributes of the
class, for which `hasattr` is false. Python kwargs cannot repeat a name, so
a record of options is a faithful model. Method names of the class, which
`hasattr` also accepts, are outside the model. -/
structure UpdateArgs where
  scene_id : Option ℚ
  start_time : Option ℚ
  end_time : Option ℚ
  prompt : Option String
  visual_type : Option String
  manim_code : Option String
  elements : Option (List Json)
  auto_generated : Option Bool
  unrecognized : List String

/-- Effect of the `setattr` loop of `update_scene` on the found scene:
every present recognized value overwrites its attribute, and the
`unrecognized` names are skipped by the `hasattr` test. -/
def applyUpdate (u : UpdateArgs) (s : SceneLayer) : SceneLayer :=
  { scene_id := u.scene_id.getD s.scene_id,
    start_time := u.start_time.getD s.start_time,
    end_time := u.end_time.getD s.end_time,
    prompt := u.prompt.getD s.prompt,
    visual_type := u.visual_type.getD s.visual_type,
    manim_code := u.manim_code.getD s.manim_code,
    elements := u.elements.getD s.elements,
    auto_generated := u.auto_generated.getD s.auto_generated }

/-- Replacement of the first layer with the given id, in place: mutating
the object returned by `get_scene` keeps its list position. -/
def updateFirst (scene_id : ℚ) (u : UpdateArgs) : List SceneLayer → List SceneLayer
  | [] => []
  | s :: rest =>
      if s.scene_id = scene_id then applyUpdate u s :: rest
      else s :: updateFirst scene_id u rest

/-- Model of `TimelineSceneManager.update_scene`: look the scene up by id
and, when found, apply the recognized keyword values to it; with no match
nothing changes. -/
def TimelineSceneManager.update_scene (m : TimelineSceneManager) (scene_id : ℚ)
    (u : UpdateArgs) : TimelineSceneManager :=
  { m with layers := updateFirst scene_id u m.layers }

/-- Model of `to_json` at the JSON value level: the object that
`json.dumps` renders to the persisted text. -/
def TimelineSceneManager.to_json_value (m : TimelineSceneManager) : Json :=
  .obj [("audio_duration", .num m.audio_duration),
        ("scenes", .arr (m.layers.map SceneLayer.to_dict))]

/-- Serialization: `to_json` always renders text that `json.loads` parses
back to exactly `to_json_value`, so a serialized timeline is `some` of that
value. -/
def serialize (m : TimelineSceneManager) : Option Json :=
  some m.to_json_value

/-- Python `for x in v` over a JSON-decoded value: a list yields its
elements, a string its characters, a dict its keys; any other value raises
`TypeError`. -/
def pyIter : Json → Except PyErr (List Json)
  | .arr xs => .ok xs
  | .str s => .ok (s.data.map (fun c => .str ⟨[c]⟩))
  | .obj entries => .ok (entries.map (fun kv => .str kv.1))
  | _ => .error .typeError

/-- Loop body of `from_json`: each entry of `data.get("scenes", [])` is
decoded by `SceneLayer.from_dict` and appended, and
`next_scene_id = max(next_scene_id, scene.scene_id + 1)` is maintained,
starting from the fresh-manager value 1. -/
def buildLayers : List Json → List SceneLayer → ℚ → Except PyErr (List SceneLayer × ℚ)
  | [], acc, nid => .ok (acc, nid)
  | sj :: rest, acc, nid => do
      let sc ← SceneLayer.from_dict sj
      buildLayers rest (acc ++ [sc]) (max nid (sc.scene_id + 1))

/-- Model of `TimelineSceneManager.from_json` on a parsed JSON value:
`data.get` on a non-dict top level raises `AttributeError`; otherwise the
manager is rebuilt from `audio_duration` and the decoded scenes, the id
counter is recomputed from 1 by `max(next, id + 1)` regardless of anything
stored, and the layers are sorted by start time. -/
def TimelineSceneManager.from_json_value (j : Json) : Except PyErr TimelineSceneManager :=
  match j with
  | .obj entries => do
      let ad ← (dictGet entries "audio_duration" (.num 0)).toNum
      let items ← pyIter (dictGet entries "scenes" (.arr []))
      let (ls, nid) ← buildLayers items [] 1
      pure { audio_duration := ad, layers := sortLayers ls, next_scene_id := nid }
  | _ => .error .attributeError

/-- Deserialization from persisted text: `none` stands for text rejected by
`json.loads` (a `json.JSONDecodeError`, the ParseError of the spec); parsed
text is handed to `from_json_value`. -/
def deserialize (input : Option Json) : Except PyErr TimelineSceneManager :=
  match input with
  | none => .error .parseError
  | some j => TimelineSceneManager.from_json_value j

/-- Model of the scene-validation step of
`ManimTimelineSceneNode.render_timeline_scenes` in `src/nodes.py`: with an
empty timeline, auto-detection runs when it is enabled and word timestamps
are present, and the detected scenes are added; otherwise the node raises
`ValueError("Timeline has no scenes. ...")` before any code generation, so
no document is emitted for an empty timeline. -/
def render_validate (m : TimelineSceneManager) (auto_detect : Bool)
    (word_timestamps : List WordTimestamp) (method : String) :
    Except PyErr TimelineSceneManager :=
  if m.layers.length = 0 then
    if auto_detect && !word_timestamps.isEmpty then do
      let (scs, m') ← m.auto_detect_scenes word_timestamps method
      pure (scs.foldl TimelineSceneManager.add_scene m')
    else
      .error (.valueError "Timeline has no scenes. Provide scenes in JSON or enable auto-detection with audio.")
  else
    .ok m

/-- States reachable through the mutation API exactly as claim C4 lists it:
any sequence of `add_scene`, `remove_scene`, `update_scene` and successful
`deserialize` calls. -/
inductive Reachable : TimelineSceneManager → Prop where
  | init (audio_duration : ℚ) : Reachable (TimelineSceneManager.init audio_duration)
  | add {m} (h : Reachable m) (scene : SceneLayer) : Reachable (m.add_scene scene)
  | remove {m} (h : Reachable m) (scene_id : ℚ) : Reachable (m.remove_scene scene_id)
  | update {m} (h : Reachable m) (scene_id : ℚ) (u : UpdateArgs) :
      Reachable (m.update_scene scene_id u)
  | deser {m} (input : Option Json) (h : deserialize input = .ok m) : Reachable m

/-- States reachable when `update_scene` is never asked to rewrite
`scene_id` and deserialized text carries pairwise distinct ids: the
restriction forced by the counterexample to claim C4. -/
inductive ReachableTame : TimelineSceneManager → Prop where
  | init (audio_duration : ℚ) : ReachableTame (TimelineSceneManager.init audio_duration)
  | add {m} (h : ReachableTame m) (scene : SceneLayer) : ReachableTame (m.add_scene scene)
  | remove {m} (h : ReachableTame m) (scene_id : ℚ) : ReachableTame (m.remove_scene scene_id)
  | update {m} (h : ReachableTame m) (scene_id : ℚ) (u : UpdateArgs)
      (hid : u.scene_id = none) : ReachableTame (m.update_scene scene_id u)
  | deser {m} (input : Option Json) (h : deserialize input = .ok m)
      (hd : (m.layers.map SceneLayer.scene_id).Pairwise (· ≠ ·)) : ReachableTame m

theorem mem_insertByStart {x s : SceneLayer} {l : List SceneLayer} :
    x ∈ insertByStart s l ↔ x = s ∨ x ∈ l := by
  induction l with
  | nil => simp [insertByStart]
  | cons t rest ih =>
      by_cases h : t.start_time ≤ s.start_time
      · simp only [insertByStart, if_pos h, List.mem_cons, ih]
        tauto
      · simp only [insertByStart, if_neg h, List.mem_cons]

theorem perm_insertByStart (s : SceneLayer) (l : List SceneLayer) :
    List.Perm (insertByStart s l) (s :: l) := by
  induction l with
  | nil => simp [insertByStart]
  | cons t rest ih =>
      by_cases h : t.start_time ≤ s.start_time
      · simp only [insertByStart, if_pos h]
        exact (ih.cons t).trans (List.Perm.swap s t rest)
      · simp [insertByStart, h]

theorem perm_sortAux (l acc : List SceneLayer) :
    List.Perm (List.foldl (fun a s => insertByStart s a) acc l) (acc ++ l) := by
  induction l generalizing acc with
  | nil => simp
  | cons s rest ih =>
      refine ((ih (insertByStart s acc)).trans ?_)
      refine ((perm_insertByStart s acc).append_right rest).trans ?_
      exact List.perm_middle.symm

theorem perm_sortLayers (ls : List SceneLayer) : List.Perm (sortLayers ls) ls := by
  simpa [sortLayers] using perm_sortAux ls []

theorem pairwise_insertByStart {s : SceneLayer} {l : List SceneLayer}
    (h : l.Pairwise (fun a b => a.start_time ≤ b.start_time)) :
    (insertByStart s l).Pairwise (fun a b => a.start_time ≤ b.start_time) := by
  induction l with
  | nil => simp [insertByStart]
  | cons t rest ih =>
      rcases List.pairwise_cons.mp h with ⟨ht, hrest⟩
      by_cases hc : t.start_time ≤ s.start_time
      · simp only [insertByStart, if_pos hc]
        refine List.pairwise_cons.mpr ⟨?_, ih hrest⟩
        intro x hx
        rcases mem_insertByStart.mp hx with rfl | hx
        · exact hc
        · exact ht x hx
      · simp only [insertByStart, if_neg hc]
        have hst : s.start_time ≤ t.start_time := le_of_lt (lt_of_not_le hc)
        refine List.pairwise_cons.mpr ⟨?_, h⟩
        intro x hx
        rcases List.mem_cons.mp hx with rfl | hx
        · exact hst
        · exact le_trans hst (ht x hx)

theorem pairwise_sortLayers (ls : List SceneLayer) :
    (sortLayers ls).Pairwise (fun a b => a.start_time ≤ b.start_time) := by
  have aux : ∀ (l acc : List SceneLayer),
      acc.Pairwise (fun a b => a.start_time ≤ b.start_time) →
      (List.foldl (fun a s => insertByStart s a) acc l).Pairwise
        (fun a b => a.start_time ≤ b.start_time) := by
    intro l
    induction l with
    | nil => intro acc h; simpa using h
    | cons s rest ih =>
        intro acc h
        exact ih _ (pairwise_insertByStart h)
  exact aux ls [] (by simp)

theorem foldl_maxKey_init_le (l : List SceneLayer) (a : ℚ) :
    a ≤ List.foldl (fun q s => max q (s.scene_id + 1)) a l := by
  induction l generalizing a with
  | nil => simp
  | cons s rest ih => exact le_trans (le_max_left _ _) (ih _)

theorem mem_le_foldl_maxKey {x : SceneLayer} {l : List SceneLayer} (a : ℚ)
    (hx : x ∈ l) :
    x.scene_id + 1 ≤ List.foldl (fun q s => max q (s.scene_id + 1)) a l := by
  induction l generalizing a with
  | nil => cases hx
  | cons s rest ih =>
      rcases List.mem_cons.mp hx with rfl | hx
      · exact le_trans (le_max_right _ _) (foldl_maxKey_init_le _ _)
      · exact ih _ hx

theorem foldl_maxKey_cases (l : List SceneLayer) (a : ℚ) :
    List.foldl (fun q s => max q (s.scene_id + 1)) a l = a ∨
      ∃ s ∈ l, List.foldl (fun q s => max q (s.scene_id + 1)) a l = s.scene_id + 1 := by
  induction l generalizing a with
  | nil => exact Or.inl rfl
  | cons s rest ih =>
      rcases ih (max a (s.scene_id + 1)) with h | ⟨t, ht, h⟩
      · rcases max_choice a (s.scene_id + 1) with hm | hm
        · exact Or.inl (h.trans hm)
        · exact Or.inr ⟨s, List.mem_cons_self s rest, h.trans hm⟩
      · exact Or.inr ⟨t, List.mem_cons_of_mem s ht, h⟩

theorem foldl_maxKey_perm {l₁ l₂ : List SceneLayer} (p : List.Perm l₁ l₂) (a : ℚ) :
    List.foldl (fun q s => max q (s.scene_id + 1)) a l₁ =
      List.foldl (fun q s => max q (s.scene_id + 1)) a l₂ := by
  induction p generalizing a with
  | nil => rfl
  | cons x _ ih => simpa using ih _
  | swap x y l =>
      simp only [List.foldl_cons]
      have : max (max a (y.scene_id + 1)) (x.scene_id + 1) =
          max (max a (x.scene_id + 1)) (y.scene_id + 1) := by
        rw [max_assoc, max_comm (y.scene_id + 1) _, ← max_assoc]
      rw [this]
  | trans _ _ ih₁ ih₂ => exact (ih₁ _).trans (ih₂ _)

theorem from_dict_to_dict (s : SceneLayer) :
    SceneLayer.from_dict s.to_dict = .ok s.clearAuto := rfl

theorem except_bind_ok {α β : Type} (a : α) (f : α → Except PyErr β) :
    Except.bind (Except.ok a) f = f a := rfl

theorem except_bind_error {α β : Type} (e : PyErr) (f : α → Except PyErr β) :
    Except.bind (Except.error e) f = Except.error e := rfl

theorem buildLayers_nil (acc : List SceneLayer) (nid : ℚ) :
    buildLayers [] acc nid = .ok (acc, nid) := rfl

theorem buildLayers_cons (sj : Json) (rest : List Json) (acc : List SceneLayer) (nid : ℚ) :
    buildLayers (sj :: rest) acc nid =
      Except.bind (SceneLayer.from_dict sj)
        (fun sc => buildLayers rest (acc ++ [sc]) (max nid (sc.scene_id + 1))) := rfl

theorem buildLayers_ok {items : List Json} {acc ls : List SceneLayer} {nid nid' : ℚ}
    (h : buildLayers items acc nid = .ok (ls, nid')) :
    ∃ new, ls = acc ++ new ∧
      nid' = List.foldl (fun q s => max q (s.scene_id + 1)) nid new := by
  induction items generalizing acc nid with
  | nil =>
      rw [buildLayers_nil] at h
      cases h
      exact ⟨[], by simp, rfl⟩
  | cons sj rest ih =>
      rw [buildLayers_cons] at h
      cases hd : SceneLayer.from_dict sj with
      | error e => rw [hd, except_bind_error] at h; cases h
      | ok sc =>
          rw [hd, except_bind_ok] at h
          rcases ih h with ⟨new, hls, hnid⟩
          exact ⟨sc :: new, by simpa using hls, by simpa using hnid⟩

theorem buildLayers_map_to_dict (l : List SceneLayer) :
    ∀ (acc : List SceneLayer) (nid : ℚ),
    buildLayers (l.map SceneLayer.to_dict) acc nid =
      .ok (acc ++ l.map SceneLayer.clearAuto,
        List.foldl (fun q s => max q (s.scene_id + 1)) nid l) := by
  induction l with
  | nil => intro acc nid; simp [buildLayers_nil]
  | cons s rest ih =>
      intro acc nid
      rw [List.map_cons, buildLayers_cons, from_dict_to_dict, except_bind_ok, ih]
      simp [SceneLayer.clearAuto]

theorem from_json_value_serialized (ad : ℚ) (xs : List Json) :
    TimelineSceneManager.from_json_value
        (.obj [("audio_duration", .num ad), ("scenes", .arr xs)]) =
      Except.bind (buildLayers xs [] 1)
        (fun p => .ok { audio_duration := ad, layers := sortLayers p.1,
                        next_scene_id := p.2 }) := rfl

theorem deserialize_serialize (m : TimelineSceneManager) :
    deserialize (serialize m) =
      .ok { audio_duration := m.audio_duration,
            layers := sortLayers (m.layers.map SceneLayer.clearAuto),
            next_scene_id :=
              List.foldl (fun q s => max q (s.scene_id + 1)) 1 m.layers } := by
  have h1 : deserialize (serialize m) =
      TimelineSceneManager.from_json_value
        (.obj [("audio_duration", .num m.audio_duration),
               ("scenes", .arr (m.layers.map SceneLayer.to_dict))]) := rfl
  rw [h1, from_json_value_serialized, buildLayers_map_to_dict, except_bind_ok]
  simp

theorem scenesOfGroups_cons_snd (nid : ℚ) (w : WordTimestamp)
    (ws : List WordTimestamp) (rest : List (List WordTimestamp)) :
    (scenesOfGroups nid ((w :: ws) :: rest)).2 = (scenesOfGroups (nid + 1) rest).2 := rfl

theorem scenesOfGroups_cons_len (nid : ℚ) (w : WordTimestamp)
    (ws : List WordTimestamp) (rest : List (List WordTimestamp)) :
    (scenesOfGroups nid ((w :: ws) :: rest)).1.length =
      (scenesOfGroups (nid + 1) rest).1.length + 1 := rfl

theorem scenesOfGroups_len (gs : List (List WordTimestamp)) :
    ∀ nid : ℚ, (scenesOfGroups nid gs).2 = nid + ((scenesOfGroups nid gs).1.length : ℚ) := by
  induction gs with
  | nil => intro nid; simp [scenesOfGroups]
  | cons g rest ih =>
      intro nid
      cases g with
      | nil => simpa [scenesOfGroups] using ih nid
      | cons w ws =>
          rw [scenesOfGroups_cons_snd, scenesOfGroups_cons_len, ih (nid + 1)]
          push_cast
          ring

/-- Claim C1, counterexample: a timeline whose first layer has
`auto_generated = True` (and whose layers are not in start-time order) does
not round-trip to identical layers: deserialization resets every
`auto_generated` flag to `False` and re-sorts the layers by start time, so
the (id, start_time, auto_generated) projection of the layers differs. -/
theorem roundtrip_counterexample :
    (deserialize (serialize
        ⟨2, [⟨1, 10, 11, "a", "auto", "", [], true⟩,
             ⟨2, 0, 1, "b", "auto", "", [], false⟩], 3⟩)).map
        (fun r => r.layers.map (fun s => (s.scene_id, s.start_time, s.auto_generated))) =
      .ok [((2 : ℚ), (0 : ℚ), false), ((1 : ℚ), (10 : ℚ), false)] ∧
    (⟨2, [⟨1, 10, 11, "a", "auto", "", [], true⟩,
          ⟨2, 0, 1, "b", "auto", "", [], false⟩], 3⟩ :
        TimelineSceneManager).layers.map
        (fun s => (s.scene_id, s.start_time, s.auto_generated)) =
      [((1 : ℚ), (10 : ℚ), true), ((2 : ℚ), (0 : ℚ), false)] ∧
    ([((1 : ℚ), (10 : ℚ), true), ((2 : ℚ), (0 : ℚ), false)] :
        List (ℚ × ℚ × Bool)) ≠ [(2, 0, false), (1, 10, false)] := by
  refine ⟨?_, rfl, by decide⟩
  with_unfolding_all rfl

/-- Claim C1 (amended): deserializing a serialized timeline yields the same
audio duration (hence at least the original), and layers equal to the
original layers stably sorted by start time with every `auto_generated`
flag reset to `False` (ids, times, prompt, visual type, code and elements
preserved); the id counter is recomputed as the maximum of 1 and all
`id + 1`. -/
theorem roundtrip_amended (m : TimelineSceneManager) :
    deserialize (serialize m) =
      .ok { audio_duration := m.audio_duration,
            layers := sortLayers (m.layers.map SceneLayer.clearAuto),
            next_scene_id :=
              List.foldl (fun q s => max q (s.scene_id + 1)) 1 m.layers } :=
  deserialize_serialize m

/-- Claim C2: with `audio_duration = 3.0` the interval method raises
`TypeError` instead of returning one scene spanning `[0.0, 3.0]`, because
the loop body calls `SceneLayer(..., auto_generated=True)` and
`SceneLayer.__init__` has no `auto_generated` parameter. -/
theorem interval_mode_crashes :
    (TimelineSceneManager.init 3).auto_detect_scenes [] "time" = .error .typeError := by
  with_unfolding_all rfl

/-- Claim C3: rendering a timeline with zero layers and no word timestamps
raises the user-visible `ValueError` (the EmptyTimelineError of the spec)
before any code generation, for every auto-detect flag and method. -/
theorem empty_timeline_error (m : TimelineSceneManager) (auto_detect : Bool)
    (method : String) (h : m.layers = []) :
    render_validate m auto_detect [] method =
      .error (.valueError
        "Timeline has no scenes. Provide scenes in JSON or enable auto-detection with audio.") := by
  unfold render_validate
  rw [h]
  simp

/-- Witness for C3 at a fresh empty manager with auto-detection enabled. -/
theorem empty_timeline_error_witness :
    render_validate (TimelineSceneManager.init 0) true [] "sentence" =
      .error (.valueError
        "Timeline has no scenes. Provide scenes in JSON or enable auto-detection with audio.") :=
  empty_timeline_error (TimelineSceneManager.init 0) true "sentence" rfl

/-- Claim C6: on the eight-word input the sentence method returns exactly
two auto-generated scenes, the first spanning `[0.0, 1.1]` with prompt
`"Hello world ."` and the second spanning `[1.5, 2.6]` with prompt
`"This is a test ."`, consuming ids 1 and 2 of a fresh manager; and in
general a group closes exactly when the stripped word ends a sentence, and
a nonempty trailing group closes at input end. -/
theorem sentence_mode_scenario :
    ((TimelineSceneManager.init 0).auto_detect_scenes
        [⟨"Hello", 0, 0.5⟩, ⟨"world", 0.5, 1⟩, ⟨".", 1, 1.1⟩, ⟨"This", 1.5, 1.8⟩,
         ⟨"is", 1.8, 2⟩, ⟨"a", 2, 2.1⟩, ⟨"test", 2.1, 2.5⟩, ⟨".", 2.5, 2.6⟩]
        "sentence" =
      .ok ([⟨1, 0, 1.1, "Hello world .", "auto", "", [], true⟩,
            ⟨2, 1.5, 2.6, "This is a test .", "auto", "", [], true⟩],
           ⟨0, [], 3⟩)) ∧
    (∀ (w : WordTimestamp) (ws cur : List WordTimestamp),
      (pyStrip w.word).isEmpty = false → endsSentence (pyStrip w.word) = true →
      groupWords (w :: ws) cur = (cur ++ [w]) :: groupWords ws []) ∧
    (∀ cur : List WordTimestamp, cur.isEmpty = false → groupWords [] cur = [cur]) := by
  refine ⟨by with_unfolding_all rfl, ?_, ?_⟩
  · intro w ws cur h1 h2
    simp [groupWords, h1, h2]
  · intro cur h
    simp [groupWords, h]

/-- Witness for C6: the closing rules applied to a one-word sentence and a
nonempty trailing group. -/
theorem sentence_mode_scenario_witness :
    groupWords [⟨"Hi.", 0, 1⟩] [] = ([] ++ [⟨"Hi.", 0, 1⟩]) :: groupWords [] [] ∧
    groupWords [] [⟨"x", 0, 1⟩] = [[⟨"x", 0, 1⟩]] :=
  ⟨sentence_mode_scenario.2.1 ⟨"Hi.", 0, 1⟩ [] [] (by decide) (by decide),
   sentence_mode_scenario.2.2 [⟨"x", 0, 1⟩] (by decide)⟩

/-- Claim C7 (amended): `set_in_point` writes
`max(0, min(time, end_time - 0.1))`, which lies in `[0, end_time - 0.1]`
whenever `end_time >= 0.1`; `set_out_point` always lands in
`[start_time + 0.1, infinity)`; `get_duration` is always at least the 0.01
floor; none of the three can raise. -/
theorem clamp_invariants (s : SceneLayer) (t : ℚ) :
    ((0.1 : ℚ) ≤ s.end_time →
      0 ≤ (s.set_in_point t).start_time ∧
        (s.set_in_point t).start_time ≤ s.end_time - 0.1) ∧
    s.start_time + 0.1 ≤ (s.set_out_point t).end_time ∧
    (0.01 : ℚ) ≤ s.get_duration := by
  refine ⟨fun h => ?_, le_max_left _ _, le_max_left _ _⟩
  constructor
  · exact le_max_left _ _
  · exact max_le (by linarith) (min_le_right _ _)

/-- Witness for C7 at a layer with `end_time = 1` and input time `-5`. -/
theorem clamp_invariants_witness :
    (0 ≤ ((⟨1, 0, 1, "", "auto", "", [], false⟩ : SceneLayer).set_in_point (-5)).start_time ∧
      ((⟨1, 0, 1, "", "auto", "", [], false⟩ : SceneLayer).set_in_point (-5)).start_time ≤
        (⟨1, 0, 1, "", "auto", "", [], false⟩ : SceneLayer).end_time - 0.1) ∧
    (⟨1, 0, 1, "", "auto", "", [], false⟩ : SceneLayer).start_time + 0.1 ≤
      ((⟨1, 0, 1, "", "auto", "", [], false⟩ : SceneLayer).set_out_point (-5)).end_time ∧
    (0.01 : ℚ) ≤ (⟨1, 0, 1, "", "auto", "", [], false⟩ : SceneLayer).get_duration := by
  have h := clamp_invariants (⟨1, 0, 1, "", "auto", "", [], false⟩ : SceneLayer) (-5)
  exact ⟨h.1 (by with_unfolding_all decide), h.2.1, h.2.2⟩

/-- Claim C7, counterexample: on a layer with `end_time = 0` the claimed
clamp target `[0, end_time - 0.1]` is empty, and `set_start` writes 0,
which is not in it. -/
theorem clamp_counterexample :
    ((⟨1, 0, 0, "", "auto", "", [], false⟩ : SceneLayer).set_in_point 0).start_time = 0 ∧
    ¬ (((⟨1, 0, 0, "", "auto", "", [], false⟩ : SceneLayer).set_in_point 0).start_time ≤
        (⟨1, 0, 0, "", "auto", "", [], false⟩ : SceneLayer).end_time - 0.1) := by
  constructor
  · with_unfolding_all rfl
  · with_unfolding_all decide

/-- Claim C10: every returning call of `auto_detect_scenes` leaves the
layers and the audio duration unchanged, does not insert the returned
candidates, and advances the id counter by exactly the number of
candidates returned. -/
theorem auto_detect_frame (m : TimelineSceneManager) (ws : List WordTimestamp)
    (method : String) (scs : List SceneLayer) (m' : TimelineSceneManager)
    (h : m.auto_detect_scenes ws method = .ok (scs, m')) :
    m'.layers = m.layers ∧ m'.audio_duration = m.audio_duration ∧
      m'.next_scene_id = m.next_scene_id + (scs.length : ℚ) := by
  unfold TimelineSceneManager.auto_detect_scenes at h
  by_cases h1 : method = "sentence"
  · rw [if_pos h1] at h
    have h2 : scs = (scenesOfGroups m.next_scene_id (groupWords ws [])).1 ∧
        m' = { m with next_scene_id := (scenesOfGroups m.next_scene_id (groupWords ws [])).2 } := by
      have := h
      simp only [Except.ok.injEq, Prod.mk.injEq] at this
      exact ⟨this.1.symm, this.2.symm⟩
    rcases h2 with ⟨hs, hm⟩
    subst hs
    subst hm
    refine ⟨rfl, rfl, ?_⟩
    simpa using scenesOfGroups_len (groupWords ws []) m.next_scene_id
  · rw [if_neg h1] at h
    by_cases h2 : method = "time"
    · rw [if_pos h2] at h
      by_cases h3 : 0 < m.audio_duration
      · rw [if_pos h3] at h
        cases h
      · rw [if_neg h3] at h
        have h4 : scs = [] ∧ m' = m := by
          have := h
          simp only [Except.ok.injEq, Prod.mk.injEq] at this
          exact ⟨this.1.symm, this.2.symm⟩
        rcases h4 with ⟨hs, hm⟩
        subst hs
        subst hm
        simp
    · rw [if_neg h2] at h
      have h4 : scs = [] ∧ m' = m := by
        have := h
        simp only [Except.ok.injEq, Prod.mk.injEq] at this
        exact ⟨this.1.symm, this.2.symm⟩
      rcases h4 with ⟨hs, hm⟩
      subst hs
      subst hm
      simp

/-- Witness for C10: a one-sentence detection on a fresh manager returns
one candidate, leaves the state otherwise alone and advances the counter
from 1 to 2. -/
theorem auto_detect_frame_witness :
    (⟨0, [], 2⟩ : TimelineSceneManager).layers = (TimelineSceneManager.init 0).layers ∧
    (⟨0, [], 2⟩ : TimelineSceneManager).audio_duration =
      (TimelineSceneManager.init 0).audio_duration ∧
    (⟨0, [], 2⟩ : TimelineSceneManager).next_scene_id =
      (TimelineSceneManager.init 0).next_scene_id +
        (([⟨1, 0, 1, "Hi.", "auto", "", [], true⟩] : List SceneLayer).length : ℚ) :=
  auto_detect_frame (TimelineSceneManager.init 0) [⟨"Hi.", 0, 1⟩] "sentence" _ _
    (by with_unfolding_all rfl)

theorem from_json_value_obj (entries : List (String × Json)) :
    TimelineSceneManager.from_json_value (.obj entries) =
      Except.bind (dictGet entries "audio_duration" (.num 0)).toNum (fun ad =>
        Except.bind (pyIter (dictGet entries "scenes" (.arr []))) (fun items =>
          Except.bind (buildLayers items [] 1) (fun p =>
            .ok { audio_duration := ad, layers := sortLayers p.1,
                  next_scene_id := p.2 }))) := rfl

theorem from_json_next_id {j : Json} {m : TimelineSceneManager}
    (h : TimelineSceneManager.from_json_value j = .ok m) :
    m.next_scene_id = List.foldl (fun q s => max q (s.scene_id + 1)) 1 m.layers := by
  cases j with
  | obj entries =>
      rw [from_json_value_obj] at h
      cases had : (dictGet entries "audio_duration" (.num 0)).toNum with
      | error e => rw [had, except_bind_error] at h; cases h
      | ok ad =>
          rw [had, except_bind_ok] at h
          cases hit : pyIter (dictGet entries "scenes" (.arr [])) with
          | error e => rw [hit, except_bind_error] at h; cases h
          | ok items =>
              rw [hit, except_bind_ok] at h
              cases hb : buildLayers items [] 1 with
              | error e => rw [hb, except_bind_error] at h; cases h
              | ok p =>
                  rw [hb, except_bind_ok] at h
                  cases h
                  rcases buildLayers_ok hb with ⟨new, hls, hnid⟩
                  simp only [List.nil_append] at hls
                  subst hls
                  rw [hnid]
                  exact foldl_maxKey_perm (perm_sortLayers p.1).symm 1
  | null => cases h
  | bool b => cases h
  | num q => cases h
  | str s => cases h
  | arr xs => cases h

/-- Claim C5, counterexample: deserializing a stored scene with id `-5`
recomputes `next_id` as 1, not as `max(existing ids) + 1 = -4`: the Python
recomputation starts from the fresh-manager value 1 and never goes below
it. -/
theorem next_id_counterexample :
    (deserialize (some (.obj [("scenes", .arr [.obj [("id", .num (-5))]])]))).map
        (fun r => (r.next_scene_id, r.layers.map SceneLayer.scene_id)) =
      .ok ((1 : ℚ), [(-5 : ℚ)]) ∧
    (1 : ℚ) ≠ (-5) + 1 := by
  constructor
  · with_unfolding_all rfl
  · with_unfolding_all decide

/-- Claim C5 (amended): text rejected by `json.loads` fails with the
ParseError; valid JSON whose top level is not an object fails with
`AttributeError` instead (as can object inputs with malformed scene
entries); and on success `next_id` is recomputed as the maximum of 1 and
all stored `id + 1`, regardless of any value stored in the text. -/
theorem deserialize_amended :
    (deserialize none = .error .parseError) ∧
    (∀ j : Json, j.isObj = false → deserialize (some j) = .error .attributeError) ∧
    (∀ (j : Json) (m : TimelineSceneManager), deserialize (some j) = .ok m →
      m.next_scene_id = List.foldl (fun q s => max q (s.scene_id + 1)) 1 m.layers) := by
  refine ⟨rfl, ?_, ?_⟩
  · intro j hj
    cases j with
    | obj entries => cases hj
    | null => rfl
    | bool b => rfl
    | num q => rfl
    | str s => rfl
    | arr xs => rfl
  · intro j m h
    exact from_json_next_id h

/-- Witness for C5: a non-object top level raises `AttributeError`, and a
successful deserialization of one scene with id 7 yields the recomputed
counter value. -/
theorem deserialize_amended_witness :
    deserialize (some (.arr [])) = .error .attributeError ∧
    (⟨0, [⟨7, 0, 0, "", "auto", "", [], false⟩], 8⟩ :
        TimelineSceneManager).next_scene_id =
      List.foldl (fun q s => max q (s.scene_id + 1)) 1
        (⟨0, [⟨7, 0, 0, "", "auto", "", [], false⟩], 8⟩ :
          TimelineSceneManager).layers := by
  constructor
  · exact deserialize_amended.2.1 (.arr []) rfl
  · exact deserialize_amended.2.2
      (.obj [("scenes", .arr [.obj [("id", .num 7)]])]) _
      (by with_unfolding_all rfl)

/-- Claim C8: after every `add_scene` call, on any prior state, the layers
are sorted by start time ascending; and on a fresh timeline two layers
added in reverse chronological order end up stored start-time-ascending,
the first call receiving id 1 and the second id 2, overriding the ids
carried by the inputs. -/
theorem add_scene_sorted :
    (∀ (m : TimelineSceneManager) (scene : SceneLayer),
      (m.add_scene scene).layers.Pairwise (fun a b => a.start_time ≤ b.start_time)) ∧
    ((TimelineSceneManager.init 0).add_scene
          ⟨99, 10, 11, "A", "auto", "", [], false⟩).add_scene
        ⟨98, 5, 6, "B", "auto", "", [], false⟩ =
      ⟨0, [⟨2, 5, 6, "B", "auto", "", [], false⟩,
           ⟨1, 10, 11, "A", "auto", "", [], false⟩], 3⟩ := by
  constructor
  · intro m scene
    exact pairwise_sortLayers _
  · with_unfolding_all rfl

/-- Claim C9: an update whose recognized fields are all absent, whatever
unrecognized keyword names it carries, raises no error and leaves the
manager, including the matched scene, completely unchanged. -/
theorem update_unrecognized (m : TimelineSceneManager) (scene_id : ℚ) (u : UpdateArgs)
    (h1 : u.scene_id = none) (h2 : u.start_time = none) (h3 : u.end_time = none)
    (h4 : u.prompt = none) (h5 : u.visual_type = none) (h6 : u.manim_code = none)
    (h7 : u.elements = none) (h8 : u.auto_generated = none) :
    m.update_scene scene_id u = m := by
  have happ : ∀ s : SceneLayer, applyUpdate u s = s := by
    intro s
    simp [applyUpdate, h1, h2, h3, h4, h5, h6, h7, h8]
  have hlist : ∀ ls : List SceneLayer, updateFirst scene_id u ls = ls := by
    intro ls
    induction ls with
    | nil => rfl
    | cons s rest ih =>
        by_cases hc : s.scene_id = scene_id
        · simp [updateFirst, hc, happ]
        · simp [updateFirst, hc, ih]
  show { m with layers := updateFirst scene_id u m.layers } = m
  rw [hlist]

/-- Witness for C9: updating a one-scene timeline with only the
unrecognized keywords `color` and `zoom` changes nothing. -/
theorem update_unrecognized_witness :
    (⟨7, [⟨1, 0, 1, "p", "auto", "", [], false⟩], 2⟩ :
        TimelineSceneManager).update_scene 1
        ⟨none, none, none, none, none, none, none, none, ["color", "zoom"]⟩ =
      ⟨7, [⟨1, 0, 1, "p", "auto", "", [], false⟩], 2⟩ :=
  update_unrecognized _ 1 _ rfl rfl rfl rfl rfl rfl rfl rfl

theorem updateFirst_map_id {u : UpdateArgs} (hid : u.scene_id = none)
    (scene_id : ℚ) (ls : List SceneLayer) :
    (updateFirst scene_id u ls).map SceneLayer.scene_id =
      ls.map SceneLayer.scene_id := by
  induction ls with
  | nil => rfl
  | cons s rest ih =>
      by_cases hc : s.scene_id = scene_id
      · simp [updateFirst, hc, applyUpdate, hid]
      · simp [updateFirst, hc, ih]

/-- Claim C4, counterexample: the manager holding two layers that both
carry id 1 is reachable by one `deserialize` call (the stored text is free
to repeat ids and `from_json` does not deduplicate), and its scene ids are
not pairwise distinct. -/
theorem unique_ids_counterexample :
    Reachable ⟨0, [⟨1, 0, 0, "", "auto", "", [], false⟩,
                   ⟨1, 0, 0, "", "auto", "", [], false⟩], 2⟩ ∧
    ¬ ((⟨0, [⟨1, 0, 0, "", "auto", "", [], false⟩,
             ⟨1, 0, 0, "", "auto", "", [], false⟩], 2⟩ :
          TimelineSceneManager).layers.map SceneLayer.scene_id).Pairwise (· ≠ ·) := by
  constructor
  · exact Reachable.deser
      (some (.obj [("scenes", .arr [.obj [("id", .num 1)], .obj [("id", .num 1)]])]))
      (by with_unfolding_all rfl)
  · with_unfolding_all decide

/-- Claim C4 (amended): in every state reachable by `add_scene`,
`remove_scene`, `update_scene` calls that do not rewrite `scene_id`, and
`deserialize` of text whose stored ids are pairwise distinct, the scene ids
are pairwise distinct and each is strictly below the next-id counter. -/
theorem unique_ids_amended (m : TimelineSceneManager) (h : ReachableTame m) :
    (m.layers.map SceneLayer.scene_id).Pairwise (· ≠ ·) ∧
      ∀ i ∈ m.layers.map SceneLayer.scene_id, i < m.next_scene_id := by
  induction h with
  | init ad => simp [TimelineSceneManager.init]
  | add hm scene ih =>
      rename_i m0
      constructor
      · have hperm :
            List.Perm
              (((m0.add_scene scene).layers).map SceneLayer.scene_id)
              ((m0.layers ++
                  [{ scene with scene_id := m0.next_scene_id }]).map SceneLayer.scene_id) :=
          (perm_sortLayers _).map _
        refine (hperm.pairwise_iff (fun h => h.symm)).mpr ?_
        rw [List.map_append]
        refine List.pairwise_append.mpr ⟨ih.1, by simp, ?_⟩
        intro a ha b hb
        simp only [List.map_cons, List.map_nil, List.mem_singleton] at hb
        subst hb
        exact ne_of_lt (ih.2 a ha)
      · intro i hi
        have hperm :
            List.Perm
              (((m0.add_scene scene).layers).map SceneLayer.scene_id)
              ((m0.layers ++
                  [{ scene with scene_id := m0.next_scene_id }]).map SceneLayer.scene_id) :=
          (perm_sortLayers _).map _
        have hi' := hperm.mem_iff.mp hi
        rw [List.map_append] at hi'
        have hnext : (m0.add_scene scene).next_scene_id = m0.next_scene_id + 1 := rfl
        rw [hnext]
        rcases List.mem_append.mp hi' with hi2 | hi2
        · exact lt_trans (ih.2 i hi2) (lt_add_one _)
        · simp only [List.map_cons, List.map_nil, List.mem_singleton] at hi2
          subst hi2
          exact lt_add_one _
  | remove hm scene_id ih =>
      rename_i m0
      have hsub :
          List.Sublist ((m0.remove_scene scene_id).layers.map SceneLayer.scene_id)
            (m0.layers.map SceneLayer.scene_id) :=
        (List.filter_sublist _).map _
      constructor
      · exact ih.1.sublist hsub
      · intro i hi
        exact ih.2 i (hsub.mem hi)
  | update hm scene_id u hid ih =>
      rename_i m0
      have hids : ((m0.update_scene scene_id u).layers.map SceneLayer.scene_id) =
          m0.layers.map SceneLayer.scene_id := updateFirst_map_id hid scene_id m0.layers
      constructor
      · rw [hids]; exact ih.1
      · intro i hi
        rw [hids] at hi
        exact ih.2 i hi
  | deser input hde hd =>
      rename_i m0
      refine ⟨hd, ?_⟩
      cases input with
      | none => cases hde
      | some j =>
          have hnext := from_json_next_id (j := j) (m := m0) hde
          intro i hi
          rcases List.mem_map.mp hi with ⟨s, hs, rfl⟩
          rw [hnext]
          exact lt_of_lt_of_le (lt_add_one _) (mem_le_foldl_maxKey 1 hs)
/-- Witness for C4: the invariant instantiated at a state reached by two
`add_scene` calls on a fresh manager. -/
theorem unique_ids_amended_witness :
    ((((TimelineSceneManager.init 0).add_scene
          ⟨9, 1, 2, "", "auto", "", [], false⟩).add_scene
        ⟨9, 0, 1, "", "auto", "", [], false⟩).layers.map
        SceneLayer.scene_id).Pairwise (· ≠ ·) :=
  (unique_ids_amended _
    (ReachableTame.add (ReachableTame.add (ReachableTame.init 0) _) _)).1
